import Mathlib

/-!
Verification development for the parkVar variant validation and annotation
pipeline.  The definitions below are a shallow embedding of the Python code in
`parkVar/modules/validate.py` and `parkVar/modules/clinvar_annotator.py`:
pure functions become Lean functions, in-place `DataFrame` mutation becomes
explicit table passing, raised exceptions become `Except` results, and the
decoded JSON payloads of the two external services become typed structures.
Log output (warnings) is returned as a list of message strings.
-/

/-- A Python scalar value as it appears in a working-table cell or a decoded
JSON field: `None`, a string, or an integer.  (Floats do not occur in the
fields the pipeline reads or writes.) -/
inductive PyVal where
  | vnone
  | vstr (s : String)
  | vint (n : Int)
deriving DecidableEq

/-- Python truthiness for `PyVal`: `None`, the empty string and `0` are falsy,
everything else is truthy.  This is the test performed by
`update_df_with_vv_values` (`if value:`). -/
def PyVal.truthy : PyVal → Bool
  | .vnone => false
  | .vstr s => !(s == "")
  | .vint n => !(n == 0)

/-- Python `str(value)`, as used in f-strings when building the variant
descriptor and the log messages. -/
def PyVal.repr : PyVal → String
  | .vnone => "None"
  | .vstr s => s
  | .vint n => toString n

/-- Python `a or b` for optional strings: the empty string and `None` are
falsy, so `first.get("trait_name") or first.get("name")` returns the second
operand when the first is absent or empty. -/
def strOr : Option String → Option String → Option String
  | some s, b => if s = "" then b else some s
  | none, b => b

/-- `needle` is a prefix of `hay` (character lists). -/
def chStarts : List Char → List Char → Bool
  | [], _ => true
  | _ :: _, [] => false
  | a :: as, b :: bs => a == b && chStarts as bs

/-- `needle` occurs somewhere in `hay` (character lists); the empty needle
occurs everywhere, matching Python's `"" in s`. -/
def chContains : List Char → List Char → Bool
  | needle, [] => chStarts needle []
  | needle, b :: bs => chStarts needle (b :: bs) || chContains needle bs

/-- Python's substring test `pat in hay`. -/
def strContains (hay pat : String) : Bool :=
  chContains pat.toList hay.toList

/-- First value bound to `k` in an association list (Python dict lookup). -/
def lookupA (k : String) : List (String × α) → Option α
  | [] => none
  | (k2, v) :: rest => if k = k2 then some v else lookupA k rest

-- ## Data model of the decoded ClinVar esummary payload
-- (`clinvar_annotator.py`).  A JSON object is embedded as a structure whose
-- fields are `Option`s (`none` = key absent); dict values that the code
-- treats as falsy (absent or empty) are also embedded as `none`.

/-- One entry of a trait's cross-reference list. -/
structure Xref where
  db_source : Option String
  db : Option String
  db_id : Option String
  id : Option String
deriving DecidableEq

/-- One entry of the `trait_set`/`traits` list. -/
structure Trait where
  trait_name : Option String
  name : Option String
  trait_xrefs : Option (List Xref)
  xrefs : Option (List Xref)
deriving DecidableEq

/-- The classification sub-object (`germline_classification` or legacy
`clinical_significance`) of a ClinVar esummary record. -/
structure ClinSig where
  description : Option String
  review_status : Option String
  trait_set : Option (List Trait)
  traits : Option (List Trait)
deriving DecidableEq

/-- The classification sub-object corresponding to the empty dict `{}`. -/
def emptyClinSig : ClinSig := ⟨none, none, none, none⟩

/-- A ClinVar esummary record; only the two keys the code reads are modelled.
`review_status` values that are not strings are embedded as `none`
(the code guards star derivation with `isinstance(review_status_text, str)`). -/
structure Esummary where
  germline_classification : Option ClinSig
  clinical_significance : Option ClinSig
deriving DecidableEq

/-- The esummary corresponding to the empty dict `{}`. -/
def emptyEsummary : Esummary := ⟨none, none⟩

/-- `esummary.get("germline_classification") or
esummary.get("clinical_significance") or {}` — a field that is absent or an
empty (falsy) dict is embedded as `none`. -/
def pickClinSig (e : Esummary) : ClinSig :=
  match e.germline_classification with
  | some c => c
  | none =>
    match e.clinical_significance with
    | some c => c
    | none => emptyClinSig

/-- The module-level dict `REVIEW_STATUS_TO_STARS` of
`clinvar_annotator.py` (lines 16-23). -/
def REVIEW_STATUS_TO_STARS : List (String × Nat) :=
  [("practice guideline", 4),
   ("reviewed by expert panel", 3),
   ("criteria provided, multiple submitters, no conflicts", 2),
   ("criteria provided, single submitter", 1),
   ("no assertion criteria provided", 0),
   ("no classification provided", 0)]

/-- Star-rating derivation of `extract_consensus_and_stars`
(`clinvar_annotator.py` lines 236-263): normalize by strip + lower, exact
dict lookup, then the ordered substring fallback chain, else `None`.
A non-string `review_status` (embedded `none`) yields `none`. -/
def starsFromReview (review_status_text : Option String) : Option Nat :=
  match review_status_text with
  | none => none
  | some txt =>
    let normalized := txt.trim.toLower
    match lookupA normalized REVIEW_STATUS_TO_STARS with
    | some r => some r
    | none =>
      if strContains normalized "practice guideline" then some 4
      else if strContains normalized "expert panel" then some 3
      else if strContains normalized "multiple submitters" &&
              strContains normalized "no conflicts" then some 2
      else if strContains normalized "criteria provided" &&
              strContains normalized "single submitter" then some 1
      else if strContains normalized "no assertion criteria provided" ||
              strContains normalized "no classification provided" then some 0
      else none

/-- `trait_set = clin_sig.get("trait_set") or clin_sig.get("traits") or []`:
an absent key or an empty (falsy) list falls through to the next operand. -/
def traitListOf (c : ClinSig) : List Trait :=
  match c.trait_set with
  | some (t :: ts) => t :: ts
  | _ =>
    match c.traits with
    | some (t :: ts) => t :: ts
    | _ => []

/-- `xrefs = first_trait.get("trait_xrefs") or first_trait.get("xrefs") or []`. -/
def xrefListOf (t : Trait) : List Xref :=
  match t.trait_xrefs with
  | some (x :: xs) => x :: xs
  | _ =>
    match t.xrefs with
    | some (x :: xs) => x :: xs
    | _ => []

/-- `(xref.get("db_source") or xref.get("db") or "").upper()`. -/
def xrefSourceUpper (x : Xref) : String :=
  ((strOr x.db_source (strOr x.db (some ""))).getD "").toUpper

/-- The `for xref in xrefs` loop of `extract_disease_from_trait_set`: on the
first entry whose uppercased source label is `"OMIM"`, take
`xref.get("db_id") or xref.get("id")` and break (even when that value is
absent). -/
def findMimLoop : List Xref → Option String
  | [] => none
  | x :: rest =>
    if xrefSourceUpper x = "OMIM" then strOr x.db_id x.id
    else findMimLoop rest

/-- `ClinVarClient.extract_disease_from_trait_set`
(`clinvar_annotator.py` lines 153-202), returning
(`disease_name`, `disease_mim`). -/
def extract_disease_from_trait_set (clin_sig : ClinSig) :
    Option String × Option String :=
  match traitListOf clin_sig with
  | [] => (none, none)
  | first_trait :: _ =>
    (strOr first_trait.trait_name first_trait.name,
     findMimLoop (xrefListOf first_trait))

/-- The record returned by `extract_consensus_and_stars`. -/
structure Extracted where
  classification : Option String
  review_status_text : Option String
  star_rating : Option Nat
  disease_name : Option String
  disease_mim : Option String
deriving DecidableEq

/-- `ClinVarClient.extract_consensus_and_stars`
(`clinvar_annotator.py` lines 204-272). -/
def extract_consensus_and_stars (esummary : Esummary) : Extracted :=
  let clin_sig := pickClinSig esummary
  let disease := extract_disease_from_trait_set clin_sig
  { classification := clin_sig.description
    review_status_text := clin_sig.review_status
    star_rating := starsFromReview clin_sig.review_status
    disease_name := disease.fst
    disease_mim := disease.snd }

-- ## Spec-side definitions (from the spec's words, for refinement claims)

/-- The spec's fixed table of six canonical review phrases with ratings
4,3,2,1,0,0 (spec section 4.3, step 1). -/
def canonicalTable : List (String × Nat) :=
  [("practice guideline", 4),
   ("reviewed by expert panel", 3),
   ("criteria provided, multiple submitters, no conflicts", 2),
   ("criteria provided, single submitter", 1),
   ("no assertion criteria provided", 0),
   ("no classification provided", 0)]

/-- The spec's `deriveConfidence(reviewText)` (section 4.3): normalize by
trimming whitespace and lowercasing, exact match against the canonical table,
otherwise the ordered substring tiers, otherwise null. -/
def deriveConfidence (reviewText : Option String) : Option Nat :=
  match reviewText with
  | none => none
  | some txt =>
    let n := txt.trim.toLower
    match canonicalTable.find? (fun p => p.fst == n) with
    | some p => some p.snd
    | none =>
      if strContains n "practice guideline" then some 4
      else if strContains n "expert panel" then some 3
      else if strContains n "multiple submitters" &&
              strContains n "no conflicts" then some 2
      else if strContains n "criteria provided" &&
              strContains n "single submitter" then some 1
      else if strContains n "no assertion criteria provided" ||
              strContains n "no classification provided" then some 0
      else none

/-- Spec-side disease extraction (spec section 4.4 / claim C6): disease name
is the `trait_name`/`name` of the first entry of the trait list (null if the
list is empty or absent); disease mim is the id field of the first
cross-reference of that first trait whose source label equals OMIM
case-insensitively, null if there is no such cross-reference. -/
def diseaseSpec (clin_sig : ClinSig) : Option String × Option String :=
  match traitListOf clin_sig with
  | [] => (none, none)
  | t :: _ =>
    (strOr t.trait_name t.name,
     ((xrefListOf t).find? (fun x => xrefSourceUpper x == "OMIM")).bind
       (fun x => strOr x.db_id x.id))

-- ## HTTP transport model

/-- Outcome of one HTTP GET, as seen by the Python code before any error
handling: either a response with a status code and an already-decoded JSON
body, or a raised network/request error (`requests.RequestException`). -/
inductive HttpOutcome (α : Type) where
  | success (status : Nat) (body : α)
  | netfail (msg : String)
deriving DecidableEq

/-- `True` on a network error or an HTTP error status (the statuses for which
`Response.raise_for_status` raises, and which both clients treat as failed). -/
def transportFail : HttpOutcome α → Bool
  | .netfail _ => true
  | .success s _ => 400 ≤ s

/-- `True` when the `Except` carries an error (a raised Python exception). -/
def isErr : Except ε α → Bool
  | .error _ => true
  | .ok _ => false

/-- `call_variant_validator` (`validate.py` lines 57-124): return the decoded
body on status 200; raise `HTTPError` on any other status; re-raise a
`RequestException` after logging.  The double indexing of the payload by the
variant descriptor (`[variant_desc][variant_desc]`, done by the caller in
`bulk_call_variant_validator`) is folded into the body type `α`. -/
def call_variant_validator (resp : HttpOutcome α) : Except String α :=
  match resp with
  | .success status body =>
    if status = 200 then .ok body
    else .error ("Unexpected status code " ++ toString status)
  | .netfail e => .error e

/-- `ClinVarClient._get_json` (`clinvar_annotator.py` lines 55-91):
`raise_for_status` raises on an error status (>= 400), a `RequestException`
is logged and re-raised, otherwise the decoded body is returned. -/
def getJson (resp : HttpOutcome α) : Except String α :=
  match resp with
  | .success status body =>
    if 400 ≤ status then .error ("HTTPError " ++ toString status)
    else .ok body
  | .netfail e => .error e

/-- Decoded body of the ClinVar esearch endpoint:
`data.get("esearchresult", {}).get("idlist", [])`. -/
structure SearchBody where
  esearchresult : Option (Option (List String))
deriving DecidableEq

/-- `ClinVarClient.search_hgvs` (`clinvar_annotator.py` lines 93-119) given
the transport outcome of its one GET: on any exception from `_get_json`,
log and return the empty list; otherwise extract the id list.
Returns (uids, error log messages). -/
def search_hgvs (hgvs : String) (resp : HttpOutcome SearchBody) :
    List String × List String :=
  match getJson resp with
  | .ok data => ((data.esearchresult.getD none).getD [], [])
  | .error e => ([], [s!"Failed to search ClinVar for {hgvs}: {e}"])

/-- Decoded body of the ClinVar esummary endpoint: `data.get("result", {})`
keyed by UID; a falsy entry (`or {}`) is embedded as an absent one. -/
structure FetchBody where
  result : Option (List (String × Esummary))
deriving DecidableEq

/-- `ClinVarClient.fetch_esummary` (`clinvar_annotator.py` lines 121-151)
given the transport outcome of its one GET: on any exception, log and return
the empty dict; otherwise `data.get("result", {}).get(uid, {}) or {}`.
Returns (esummary, error log messages). -/
def fetch_esummary (uid : String) (resp : HttpOutcome FetchBody) :
    Esummary × List String :=
  match getJson resp with
  | .ok data => ((lookupA uid (data.result.getD [])).getD emptyEsummary, [])
  | .error e => (emptyEsummary, [s!"Failed to fetch esummary for UID {uid}: {e}"])

-- ## Working-table (pandas DataFrame) model

/-- One row of the working table: an association list from column name to
cell value, in column order. -/
abbrev Row := List (String × PyVal)

/-- The working table: its column list and its rows, indexed positionally
(the tables in this pipeline have the default integer range index). -/
structure Df where
  columns : List String
  rows : List Row
deriving DecidableEq

/-- Value bound to `key` in a row, if any. -/
def rowLookup : Row → String → Option PyVal
  | [], _ => none
  | (k, v) :: rest, key => if k = key then some v else rowLookup rest key

/-- Bind `key` to `v` in a row, replacing an existing binding in place or
appending a new one (Python dict / pandas column assignment semantics). -/
def setAssoc : Row → String → PyVal → Row
  | [], key, v => [(key, v)]
  | (k, w) :: rest, key, v =>
    if k = key then (k, v) :: rest else (k, w) :: setAssoc rest key v

/-- Apply `f` to the element at position `i`, if it exists. -/
def modifyAt : Nat → (α → α) → List α → List α
  | _, _, [] => []
  | 0, f, a :: as => f a :: as
  | n + 1, f, a :: as => a :: modifyAt n f as

/-- `df.at[i, key] = v` on an in-range positional index. -/
def Df.setCell (df : Df) (i : Nat) (key : String) (v : PyVal) : Df :=
  { df with rows := modifyAt i (fun r => setAssoc r key v) df.rows }

/-- Read cell `(i, key)`; a missing row or column reads as `None` (the
pipeline only reads cells of initialized columns of existing rows). -/
def Df.cell (df : Df) (i : Nat) (key : String) : PyVal :=
  match df.rows.get? i with
  | some r => (rowLookup r key).getD PyVal.vnone
  | none => PyVal.vnone

/-- `df[key] = v` for a scalar `v`: set the column on every row, adding the
column when absent. -/
def Df.addColAll (df : Df) (key : String) (v : PyVal) : Df :=
  { columns := if key ∈ df.columns then df.columns else df.columns ++ [key]
    rows := df.rows.map (fun r => setAssoc r key v) }

-- ## Annotation batch orchestrator (`annotate_dataframe`)

/-- A network request issued by the annotation stage. -/
inductive NetCall where
  | searchCall (term : PyVal)
  | fetchCall (uid : String)
deriving DecidableEq

/-- The client object handed to `annotate_dataframe`.  Each per-row operation
may raise (tests inject mocks; the real client's `search_hgvs` and
`fetch_esummary` catch internally and never raise, while
`extract_consensus_and_stars` can raise on malformed payloads).  A raised
exception is an `Except.error`. -/
structure ClinVarOracle where
  search : PyVal → Except String (List String)
  fetch : String → Except String Esummary
  extract : Esummary → Except String Extracted

/-- The real client's extraction method, which is total on decoded payloads. -/
def realExtract (e : Esummary) : Except String Extracted :=
  .ok (extract_consensus_and_stars e)

/-- An exception raised during the annotation stage:
the `KeyError` for a missing `t_hgvs` column or the `ValueError` for an
empty input table (`clinvar_annotator.py` lines 305-311). -/
inductive AnnErr where
  | keyError
  | valueError
deriving DecidableEq

/-- Option String to cell value. -/
def pyOfStr : Option String → PyVal
  | none => PyVal.vnone
  | some s => PyVal.vstr s

/-- Option Nat to cell value. -/
def pyOfNat : Option Nat → PyVal
  | none => PyVal.vnone
  | some n => PyVal.vint n

/-- The six writes `out.at[idx, ...] = ...` performed for a fully successful
row (`clinvar_annotator.py` lines 338-343), applied to that row. -/
def writeRowAssoc (row : Row) (uid : String) (ext : Extracted) : Row :=
  setAssoc (setAssoc (setAssoc (setAssoc (setAssoc (setAssoc row
    "clinvar_uid" (PyVal.vstr uid))
    "classification" (pyOfStr ext.classification))
    "review_status_text" (pyOfStr ext.review_status_text))
    "star_rating" (pyOfNat ext.star_rating))
    "disease_name" (pyOfStr ext.disease_name))
    "disease_mim" (pyOfStr ext.disease_mim)

/-- Body of the `for idx, row in out.iterrows()` loop of `annotate_dataframe`
(lines 325-349) for the row at index `i`.  All table writes of one iteration
target index `i` only, so the iteration is embedded as a transformation of
that row.  Any exception from the search/fetch/extract sequence is caught and
logged (`except Exception`), leaving the row unchanged.  Returns the updated
row, the warnings logged, and the network calls issued. -/
def rowEffect (client : ClinVarOracle) (row : Row) :
    Row × List String × List NetCall :=
  let hgvs := (rowLookup row "t_hgvs").getD PyVal.vnone
  let h := hgvs.repr
  match client.search hgvs with
  | .error e => (row, [s!"Error annotating {h}: {e}"], [.searchCall hgvs])
  | .ok [] => (row, [], [.searchCall hgvs])
  | .ok (uid :: _) =>
    match client.fetch uid with
    | .error e =>
      (row, [s!"Error annotating {h}: {e}"], [.searchCall hgvs, .fetchCall uid])
    | .ok esum =>
      match client.extract esum with
      | .error e =>
        (row, [s!"Error annotating {h}: {e}"],
         [.searchCall hgvs, .fetchCall uid])
      | .ok ext =>
        (writeRowAssoc row uid ext, [], [.searchCall hgvs, .fetchCall uid])

/-- The row loop of `annotate_dataframe`, processing rows in table order. -/
def annotateRows (client : ClinVarOracle) : List Row → List Row × List String × List NetCall
  | [] => ([], [], [])
  | row :: rest =>
    let step := rowEffect client row
    let tail := annotateRows client rest
    (step.fst :: tail.fst, step.snd.fst ++ tail.snd.fst,
     step.snd.snd ++ tail.snd.snd)

/-- The columns initialized to `None` by `annotate_dataframe` when absent. -/
def annCols : List String :=
  ["clinvar_uid", "classification", "review_status_text", "star_rating",
   "disease_name", "disease_mim"]

/-- `for col in [...]: if col not in out.columns: out[col] = None`
(lines 314-323). -/
def colInit (df : Df) : Df :=
  annCols.foldl (fun d c => if c ∈ d.columns then d else d.addColAll c PyVal.vnone) df

/-- `annotate_dataframe` (`clinvar_annotator.py` lines 278-351).  The input
table is copied (`out = df.copy()`), the six annotation columns are
initialized when absent, and each row is annotated in order; the annotated
copy is returned.  A missing `t_hgvs` column raises `KeyError`; an empty
table raises `ValueError` (checked in that order, before any network call).
An error result carries the network calls issued before the raise. -/
def annotate_dataframe (df : Df) (client : ClinVarOracle) :
    Except (AnnErr × List NetCall) (Df × List String × List NetCall) :=
  if "t_hgvs" ∈ df.columns then
    if df.rows.isEmpty then .error (.valueError, [])
    else
      let out := colInit df
      let res := annotateRows client out.rows
      .ok ({ columns := out.columns, rows := res.fst }, res.snd.fst, res.snd.snd)
  else .error (.keyError, [])

/-- Embeds the aliasing effect of `annotate_dataframe` on its argument: all
writes go to the copy `out = df.copy()` (line 313), so after the call the
table object the caller passed in holds exactly its old contents. -/
def annotateCallerTableAfter (df : Df) (_client : ClinVarOracle) : Df := df

-- ## Validation stage (`validate.py`)

/-- `GENOME_BUILD` (`validate.py` line 11). -/
def GENOME_BUILD : String := "GRCh38"

/-- The `gene_info` sub-object of a transcript entry of the LOVD response. -/
structure GeneInfo where
  hgnc_id : PyVal
  symbol : PyVal
deriving DecidableEq

/-- One entry of the `hgvs_t_and_p` mapping of the LOVD response. -/
structure TandP where
  t_hgvs : PyVal
  gene_info : GeneInfo
  p_hgvs_tlc : PyVal
deriving DecidableEq

/-- The per-variant object of the decoded LOVD response (the value reached
after indexing the payload twice by the variant descriptor). -/
structure VVResponse where
  genomic_variant_error : PyVal
  g_hgvs : PyVal
  hgvs_t_and_p : List (String × TandP)
deriving DecidableEq

/-- The `vv_values` dict threaded through the validation stage, in insertion
order (`validate.py` lines 331-338). -/
abbrev VVDict := List (String × PyVal)

/-- The initial `vv_values` dict of `validate_variants`. -/
def vvValuesInit : VVDict :=
  [("genome_build", PyVal.vstr GENOME_BUILD),
   ("g_hgvs", PyVal.vnone),
   ("t_hgvs", PyVal.vnone),
   ("hgnc_id", PyVal.vnone),
   ("symbol", PyVal.vnone),
   ("p_hgvs_tlc", PyVal.vnone)]

/-- `parse_vv_response` (`validate.py` lines 168-209).  The `vv_values` dict
is mutated by the Python code; here the updated dict is returned together
with the warnings logged.  On a non-null `genomic_variant_error` the dict is
returned untouched; on a transcript count other than one, `g_hgvs` has
already been written before the count check. -/
def parse_vv_response (vv_response : VVResponse) (vv_values : VVDict)
    (index : Nat) : VVDict × List String :=
  if vv_response.genomic_variant_error = PyVal.vnone then
    let vv1 := setAssoc vv_values "g_hgvs" vv_response.g_hgvs
    match vv_response.hgvs_t_and_p with
    | [(_, entry)] =>
      (setAssoc (setAssoc (setAssoc (setAssoc vv1
         "t_hgvs" entry.t_hgvs)
         "hgnc_id" entry.gene_info.hgnc_id)
         "symbol" entry.gene_info.symbol)
         "p_hgvs_tlc" entry.p_hgvs_tlc, [])
    | _ =>
      (vv1,
       [s!"Variant at row {index} has >1 MANE Select transcript ID returned, expected only 1 MANE Select transcript, no further variant information will be gathered."])
  else
    let e := vv_response.genomic_variant_error.repr
    (vv_values, [s!"Variant at row {index} could not be validated: {e}"])

/-- The warning logged by `update_df_with_vv_values` for a falsy value. -/
def vvWarnMsg (index : Nat) (key : String) : String :=
  s!"Variant at row {index} has no associated {key} value in VV."

/-- The `for key, value in vv_values.items()` loop of
`update_df_with_vv_values`: write the cell when the value is truthy,
otherwise log a warning and leave the cell unchanged. -/
def updateItems (df : Df) (index : Nat) : VVDict → Df × List String
  | [] => (df, [])
  | (key, v) :: rest =>
    if v.truthy then updateItems (df.setCell index key v) index rest
    else
      let tail := updateItems df index rest
      (tail.fst, vvWarnMsg index key :: tail.snd)

/-- `update_df_with_vv_values` (`validate.py` lines 127-166). -/
def update_df_with_vv_values (df : Df) (index : Nat) (vv_values : VVDict) :
    Df × List String :=
  updateItems df index vv_values

/-- `setup_df` after the CSV read (`validate.py` lines 17-51): add the
`genome_build` column, then one column per `vv_values` entry with its
default. -/
def setup_df (base : Df) : Df :=
  vvValuesInit.foldl (fun d kv => d.addColAll kv.fst kv.snd)
    (base.addColAll "genome_build" (PyVal.vstr GENOME_BUILD))

/-- Read a cell of a row Series; a missing label raises `KeyError`. -/
def seriesGet (row : Row) (key : String) : Except String PyVal :=
  match rowLookup row key with
  | some v => .ok v
  | none => .error s!"KeyError: {key}"

/-- The descriptor f-string
`f"{row['#CHROM']}-{row['POS']}-{row['REF']}-{row['ALT']}"`
(`validate.py` lines 263-265). -/
def buildDesc (row : Row) : Except String String := do
  let chrom ← seriesGet row "#CHROM"
  let pos ← seriesGet row "POS"
  let ref ← seriesGet row "REF"
  let alt ← seriesGet row "ALT"
  let a := chrom.repr
  let b := pos.repr
  let c := ref.repr
  let d := alt.repr
  .ok s!"{a}-{b}-{c}-{d}"

/-- Row loop of `bulk_call_variant_validator`: build each descriptor, call
the service, collect the per-row responses keyed by row index.  A raised
exception (`KeyError` from the descriptor f-string, or a transport error
re-raised by `call_variant_validator`) aborts the batch; either way the
descriptors sent over the network so far are reported. -/
def bulkLoop (oracle : String → HttpOutcome VVResponse) :
    List Row → Nat → Except (String × List String) (List (Nat × VVResponse)) × List String
  | [], _ => (.ok [], [])
  | row :: rest, i =>
    match buildDesc row with
    | .error e => (.error (e, []), [])
    | .ok desc =>
      match call_variant_validator (oracle desc) with
      | .error e => (.error (e, [desc]), [desc])
      | .ok resp =>
        let tail := bulkLoop oracle rest (i + 1)
        (match tail.fst with
         | .error p => .error (p.fst, desc :: p.snd)
         | .ok l => .ok ((i, resp) :: l), desc :: tail.snd)

/-- `bulk_call_variant_validator` (`validate.py` lines 211-281), with the
network modelled by `oracle` (descriptor to transport outcome; the double
indexing by the descriptor is folded into the oracle).  Returns the
per-index responses and, separately, the list of network calls attempted, or
the raised exception together with the calls attempted before it. -/
def bulk_call_variant_validator (variant_df : Df)
    (oracle : String → HttpOutcome VVResponse) :
    Except (String × List String) (List (Nat × VVResponse) × List String) :=
  let r := bulkLoop oracle variant_df.rows 0
  match r.fst with
  | .error p => .error p
  | .ok l => .ok (l, r.snd)

/-- The `for index, vv_response in vv_responses.items()` loop of
`validate_variants` (lines 350-360).  The single `vv_values` dict is shared
across iterations exactly as in the source: `parse_vv_response` mutates it
and the mutated dict is carried into the next iteration. -/
def applyResponses (df : Df) (vv : VVDict) :
    List (Nat × VVResponse) → Df × VVDict × List String
  | [] => (df, vv, [])
  | (i, resp) :: rest =>
    let p := parse_vv_response resp vv i
    let u := update_df_with_vv_values df i p.fst
    let tail := applyResponses u.fst p.fst rest
    (tail.fst, tail.snd.fst, p.snd ++ u.snd ++ tail.snd.snd)

/-- `validate_variants` (`validate.py` lines 284-365) after the CSV read and
before the CSV write: set up the table, call the service for every row, then
fold the responses back into the table.  Because `update_df_with_vv_values`
writes through `df.at`, the returned table is the caller's table object,
mutated in place. -/
def validate_variants_df (base : Df) (oracle : String → HttpOutcome VVResponse) :
    Except (String × List String) (Df × List String) :=
  let df0 := setup_df base
  match bulk_call_variant_validator df0 oracle with
  | .error p => .error p
  | .ok (resps, _) =>
    let r := applyResponses df0 vvValuesInit resps
    .ok (r.fst, r.snd.snd)

/-- Embeds the aliasing effect of the validation stage: the working table is
mutated in place row by row, so after the run the caller's table is the
enriched table the stage produced. -/
def validateCallerTableAfter (base : Df)
    (oracle : String → HttpOutcome VVResponse) :
    Except (String × List String) (Df × List String) :=
  validate_variants_df base oracle

-- ## Helper result projections

/-- Cell of a validation-pipeline result table (`None` on an aborted run). -/
def vvResCell (r : Except (String × List String) (Df × List String))
    (i : Nat) (c : String) : PyVal :=
  match r with
  | .ok p => p.fst.cell i c
  | .error _ => PyVal.vnone

/-- Warnings of a validation-pipeline result. -/
def vvResWarnings (r : Except (String × List String) (Df × List String)) :
    List String :=
  match r with
  | .ok p => p.snd
  | .error _ => []

/-- Cell of an annotation-stage result table (`None` on a raised error). -/
def annResCell (r : Except (AnnErr × List NetCall) (Df × List String × List NetCall))
    (i : Nat) (c : String) : PyVal :=
  match r with
  | .ok p => p.fst.cell i c
  | .error _ => PyVal.vnone

/-- Rows of an annotation-stage result table. -/
def annResRows (r : Except (AnnErr × List NetCall) (Df × List String × List NetCall)) :
    List Row :=
  match r with
  | .ok p => p.fst.rows
  | .error _ => []

-- ## Lemmas about rows and tables

lemma rowLookup_setAssoc_self (r : Row) (k : String) (v : PyVal) :
    rowLookup (setAssoc r k v) k = some v := by
  induction r with
  | nil => simp [setAssoc, rowLookup]
  | cons kv rest ih =>
    by_cases h : kv.fst = k
    · simp [setAssoc, h, rowLookup]
    · simp [setAssoc, h, rowLookup, ih]

lemma rowLookup_setAssoc_ne (r : Row) (k k2 : String) (v : PyVal)
    (h : k2 ≠ k) : rowLookup (setAssoc r k v) k2 = rowLookup r k2 := by
  induction r with
  | nil => simp [setAssoc, rowLookup, Ne.symm h]
  | cons kv rest ih =>
    by_cases hk : kv.fst = k
    · subst hk
      simp [setAssoc, rowLookup, h, Ne.symm h]
    · by_cases hk2 : kv.fst = k2
      · simp [setAssoc, hk, rowLookup, hk2, h]
      · simp [setAssoc, hk, rowLookup, hk2, ih]

lemma modifyAt_get_self (l : List α) (i : Nat) (f : α → α) :
    (modifyAt i f l).get? i = (l.get? i).map f := by
  induction l generalizing i with
  | nil => cases i <;> rfl
  | cons a as ih =>
    cases i with
    | zero => rfl
    | succ n => simpa [modifyAt] using ih n

lemma modifyAt_get_ne (l : List α) (i j : Nat) (f : α → α) (h : j ≠ i) :
    (modifyAt i f l).get? j = l.get? j := by
  induction l generalizing i j with
  | nil => cases i <;> rfl
  | cons a as ih =>
    cases i with
    | zero =>
      cases j with
      | zero => exact absurd rfl h
      | succ m => rfl
    | succ n =>
      cases j with
      | zero => rfl
      | succ m =>
        have : m ≠ n := fun hc => h (by simp [hc])
        simpa [modifyAt] using ih n m this

lemma modifyAt_length (l : List α) (i : Nat) (f : α → α) :
    (modifyAt i f l).length = l.length := by
  induction l generalizing i with
  | nil => cases i <;> rfl
  | cons a as ih =>
    cases i with
    | zero => rfl
    | succ n => simpa [modifyAt] using ih n

lemma setCell_rows_length (df : Df) (i : Nat) (key : String) (v : PyVal) :
    (df.setCell i key v).rows.length = df.rows.length := by
  simp [Df.setCell, modifyAt_length]

lemma cell_setCell_self (df : Df) (i : Nat) (key : String) (v : PyVal)
    (h : i < df.rows.length) : (df.setCell i key v).cell i key = v := by
  unfold Df.setCell Df.cell
  rw [modifyAt_get_self]
  cases hr : df.rows.get? i with
  | none =>
    have := List.get?_eq_none.mp hr
    omega
  | some r => simp [rowLookup_setAssoc_self]

lemma cell_setCell_ne_key (df : Df) (i : Nat) (key k2 : String) (v : PyVal)
    (h : k2 ≠ key) : (df.setCell i key v).cell i k2 = df.cell i k2 := by
  unfold Df.setCell Df.cell
  rw [modifyAt_get_self]
  cases hr : df.rows.get? i with
  | none => rfl
  | some r => simp [rowLookup_setAssoc_ne _ _ _ _ h]

lemma cell_setCell_ne_row (df : Df) (i j : Nat) (key k2 : String) (v : PyVal)
    (h : j ≠ i) : (df.setCell i key v).cell j k2 = df.cell j k2 := by
  unfold Df.setCell Df.cell
  rw [modifyAt_get_ne _ _ _ _ h]

lemma setAssoc_cons_eq (a : String) (b : PyVal) (rest : Row) (k : String)
    (v : PyVal) (h : a = k) : setAssoc ((a, b) :: rest) k v = (a, v) :: rest := by
  simp [setAssoc, h]

lemma setAssoc_cons_ne (a : String) (b : PyVal) (rest : Row) (k : String)
    (v : PyVal) (h : a ≠ k) :
    setAssoc ((a, b) :: rest) k v = (a, b) :: setAssoc rest k v := by
  simp [setAssoc, h]

lemma mem_keys_setAssoc (l : Row) (k k2 : String) (v : PyVal) :
    k2 ∈ (setAssoc l k v).map Prod.fst ↔ (k2 ∈ l.map Prod.fst ∨ k2 = k) := by
  induction l with
  | nil => simp [setAssoc]
  | cons kv rest ih =>
    obtain ⟨a, b⟩ := kv
    by_cases hk : a = k
    · rw [setAssoc_cons_eq a b rest k v hk]
      subst hk
      simp only [List.map_cons, List.mem_cons]
      tauto
    · rw [setAssoc_cons_ne a b rest k v hk]
      simp only [List.map_cons, List.mem_cons, ih]
      tauto

lemma keys_nodup_setAssoc (l : Row) (k : String) (v : PyVal)
    (h : (l.map Prod.fst).Nodup) : ((setAssoc l k v).map Prod.fst).Nodup := by
  induction l with
  | nil => simp [setAssoc]
  | cons kv rest ih =>
    obtain ⟨a, b⟩ := kv
    simp only [List.map_cons, List.nodup_cons] at h
    by_cases hk : a = k
    · rw [setAssoc_cons_eq a b rest k v hk]
      simp only [List.map_cons, List.nodup_cons]
      exact ⟨h.1, h.2⟩
    · rw [setAssoc_cons_ne a b rest k v hk]
      simp only [List.map_cons, List.nodup_cons]
      refine ⟨?_, ih h.2⟩
      rw [mem_keys_setAssoc]
      rintro (hc | hc)
      · exact h.1 hc
      · exact hk hc

lemma mem_setAssoc_self (l : Row) (k : String) (v : PyVal) :
    (k, v) ∈ setAssoc l k v := by
  induction l with
  | nil => simp [setAssoc]
  | cons kv rest ih =>
    obtain ⟨a, b⟩ := kv
    by_cases hk : a = k
    · rw [setAssoc_cons_eq a b rest k v hk]
      subst hk
      simp
    · rw [setAssoc_cons_ne a b rest k v hk]
      exact List.mem_cons_of_mem _ ih

lemma mem_setAssoc_of_ne (l : Row) (k k2 : String) (v v2 : PyVal)
    (h : k2 ≠ k) : (k2, v2) ∈ setAssoc l k v ↔ (k2, v2) ∈ l := by
  induction l with
  | nil => simp [setAssoc, h]
  | cons kv rest ih =>
    obtain ⟨a, b⟩ := kv
    by_cases hk : a = k
    · rw [setAssoc_cons_eq a b rest k v hk]
      subst hk
      simp only [List.mem_cons, Prod.mk.injEq]
      constructor
      · rintro (⟨h1, h2⟩ | hm)
        · exact absurd h1 h
        · exact Or.inr hm
      · rintro (⟨h1, h2⟩ | hm)
        · exact absurd h1 h
        · exact Or.inr hm
    · rw [setAssoc_cons_ne a b rest k v hk]
      simp only [List.mem_cons, ih]

lemma updateItems_cell_notin (items : VVDict) (df : Df) (i : Nat) (key : String)
    (h : key ∉ items.map Prod.fst) :
    ((updateItems df i items).fst).cell i key = df.cell i key := by
  induction items generalizing df with
  | nil => rfl
  | cons kv rest ih =>
    obtain ⟨k, v⟩ := kv
    simp only [List.map_cons, List.mem_cons, not_or] at h
    by_cases hv : v.truthy
    · simp only [updateItems, if_pos hv]
      rw [ih _ h.2, cell_setCell_ne_key _ _ _ _ _ h.1]
    · simp only [updateItems, if_neg hv]
      exact ih _ h.2

lemma updateItems_rows_length (items : VVDict) (df : Df) (i : Nat) :
    ((updateItems df i items).fst).rows.length = df.rows.length := by
  induction items generalizing df with
  | nil => rfl
  | cons kv rest ih =>
    obtain ⟨k, v⟩ := kv
    by_cases hv : v.truthy
    · simp only [updateItems, if_pos hv]
      rw [ih]
      exact setCell_rows_length df i k v
    · simp only [updateItems, if_neg hv]
      exact ih df

lemma updateItems_cell_mem (items : VVDict) (df : Df) (i : Nat) (key : String)
    (v : PyVal) (hnd : (items.map Prod.fst).Nodup) (hmem : (key, v) ∈ items)
    (hi : i < df.rows.length) :
    ((updateItems df i items).fst).cell i key
      = (if v.truthy then v else df.cell i key) := by
  induction items generalizing df with
  | nil => cases hmem
  | cons kv rest ih =>
    obtain ⟨k, w⟩ := kv
    simp only [List.map_cons, List.nodup_cons] at hnd
    rcases List.mem_cons.mp hmem with hh | htail
    · have hk : k = key := (congrArg Prod.fst hh).symm
      have hw : w = v := (congrArg Prod.snd hh).symm
      subst hk
      subst hw
      by_cases hv : w.truthy
      · simp only [updateItems, if_pos hv]
        rw [updateItems_cell_notin _ _ _ _ hnd.1]
        rw [cell_setCell_self _ _ _ _ hi]
      · simp only [updateItems, if_neg hv]
        rw [updateItems_cell_notin _ _ _ _ hnd.1]
    · have hk : key ≠ k := by
        intro hc
        subst hc
        exact hnd.1 (List.mem_map.mpr ⟨(key, v), htail, rfl⟩)
      by_cases hv : w.truthy
      · simp only [updateItems, if_pos hv]
        rw [ih _ hnd.2 htail (by rw [setCell_rows_length]; exact hi)]
        rw [cell_setCell_ne_key _ _ _ _ _ hk]
      · simp only [updateItems, if_neg hv]
        exact ih _ hnd.2 htail hi

lemma updateItems_warn_mem (items : VVDict) (df : Df) (i : Nat) (key : String)
    (v : PyVal) (hmem : (key, v) ∈ items) (hv : v.truthy = false) :
    vvWarnMsg i key ∈ (updateItems df i items).snd := by
  induction items generalizing df with
  | nil => cases hmem
  | cons kv rest ih =>
    obtain ⟨k, w⟩ := kv
    rcases List.mem_cons.mp hmem with hh | htail
    · have hk : k = key := (congrArg Prod.fst hh).symm
      have hw : w = v := (congrArg Prod.snd hh).symm
      subst hk
      subst hw
      simp only [updateItems, hv, Bool.false_eq_true, if_false]
      exact List.mem_cons_self _ _
    · by_cases hw : w.truthy
      · simp only [updateItems, if_pos hw]
        exact ih _ htail
      · simp only [updateItems, if_neg hw]
        exact List.mem_cons_of_mem _ (ih _ htail)

lemma annotateRows_get (client : ClinVarOracle) (rows : List Row) (k : Nat) :
    ((annotateRows client rows).fst).get? k
      = (rows.get? k).map (fun row => (rowEffect client row).fst) := by
  induction rows generalizing k with
  | nil => cases k <;> rfl
  | cons row rest ih =>
    cases k with
    | zero => rfl
    | succ n => simpa [annotateRows] using ih n

lemma findMimLoop_eq_find (xs : List Xref) :
    findMimLoop xs
      = ((xs.find? (fun x => xrefSourceUpper x == "OMIM")).bind
          (fun x => strOr x.db_id x.id)) := by
  induction xs with
  | nil => rfl
  | cons x rest ih =>
    by_cases h : xrefSourceUpper x = "OMIM"
    · rw [List.find?_cons_of_pos _ (by simp [h])]
      simp [findMimLoop, h]
    · rw [List.find?_cons_of_neg _ (by simp [h])]
      simp [findMimLoop, h, ih]

lemma lookup_stars_eq_find (n : String) :
    lookupA n REVIEW_STATUS_TO_STARS
      = (canonicalTable.find? (fun p => p.fst == n)).map Prod.snd := by
  by_cases h1 : n = "practice guideline"
  · subst h1; decide
  by_cases h2 : n = "reviewed by expert panel"
  · subst h2; decide
  by_cases h3 : n = "criteria provided, multiple submitters, no conflicts"
  · subst h3; decide
  by_cases h4 : n = "criteria provided, single submitter"
  · subst h4; decide
  by_cases h5 : n = "no assertion criteria provided"
  · subst h5; decide
  by_cases h6 : n = "no classification provided"
  · subst h6; decide
  have e1 : ("practice guideline" == n) = false :=
    beq_eq_false_iff_ne.mpr (Ne.symm h1)
  have e2 : ("reviewed by expert panel" == n) = false :=
    beq_eq_false_iff_ne.mpr (Ne.symm h2)
  have e3 : ("criteria provided, multiple submitters, no conflicts" == n) = false :=
    beq_eq_false_iff_ne.mpr (Ne.symm h3)
  have e4 : ("criteria provided, single submitter" == n) = false :=
    beq_eq_false_iff_ne.mpr (Ne.symm h4)
  have e5 : ("no assertion criteria provided" == n) = false :=
    beq_eq_false_iff_ne.mpr (Ne.symm h5)
  have e6 : ("no classification provided" == n) = false :=
    beq_eq_false_iff_ne.mpr (Ne.symm h6)
  simp [REVIEW_STATUS_TO_STARS, canonicalTable, lookupA, List.find?,
        h1, h2, h3, h4, h5, h6, e1, e2, e3, e4, e5, e6]

-- ## Claim theorems

/-- C1: for every review-status input, the confidence derivation performed by
`extract_consensus_and_stars` first normalizes the text by trimming
whitespace and lowercasing, then returns the rating from the exact-match
table of the six canonical phrases (4,3,2,1,0,0); with no exact match it
applies the ordered substring tests (practice guideline 4; expert panel 3;
multiple submitters and no conflicts 2; criteria provided and single
submitter 1; no assertion criteria provided or no classification provided 0);
otherwise it returns null without raising — i.e. the star derivation agrees
with the spec's `deriveConfidence` on every input. -/
theorem C1_confidence_derivation :
    ∀ (s : Option String) (e : Esummary),
      starsFromReview s = deriveConfidence s
      ∧ (extract_consensus_and_stars e).star_rating
          = deriveConfidence (pickClinSig e).review_status := by
  have hmain : ∀ s, starsFromReview s = deriveConfidence s := by
    intro s
    cases s with
    | none => rfl
    | some txt =>
      simp only [starsFromReview, deriveConfidence]
      rw [lookup_stars_eq_find]
      cases canonicalTable.find? (fun p => p.fst == txt.trim.toLower) with
      | none => rfl
      | some p => rfl
  intro s e
  exact ⟨hmain s, hmain _⟩

/-- C6: for every classification sub-object,
`extract_disease_from_trait_set` returns the name of the first entry of the
trait list as disease_name (null if the list is empty or absent), and as
disease_mim the id field of the first cross-reference of that first trait
whose source label equals the OMIM authority compared case-insensitively
(null if no such cross-reference exists). -/
theorem C6_disease_extraction :
    ∀ clin_sig : ClinSig,
      extract_disease_from_trait_set clin_sig = diseaseSpec clin_sig := by
  intro c
  simp only [extract_disease_from_trait_set, diseaseSpec]
  cases traitListOf c with
  | nil => rfl
  | cons t ts => simp [findMimLoop_eq_find]

/-- C4: on a transport failure (network/request error or HTTP error status),
the normalization client `call_variant_validator` raises the error to its
caller, whereas the classification client's `search_hgvs` catches it, logs,
and returns an empty list, and `fetch_esummary` catches it, logs, and
returns an empty dict — neither classification operation raises (both are
total and return their empty result together with one logged error). -/
theorem C4_transport_failure_asymmetry {α : Type}
    (rv : HttpOutcome α) (hgvs : String) (rs : HttpOutcome SearchBody)
    (uid : String) (rf : HttpOutcome FetchBody)
    (hv : transportFail rv = true) (hs : transportFail rs = true)
    (hf : transportFail rf = true) :
    isErr (call_variant_validator rv) = true
    ∧ (search_hgvs hgvs rs).fst = []
    ∧ (search_hgvs hgvs rs).snd.length = 1
    ∧ (fetch_esummary uid rf).fst = emptyEsummary
    ∧ (fetch_esummary uid rf).snd.length = 1 := by
  refine ⟨?_, ?_, ?_, ?_, ?_⟩
  · cases rv with
    | netfail m => rfl
    | success s body =>
      have h400 : 400 ≤ s := by simpa [transportFail] using hv
      have hne : ¬ s = 200 := by omega
      simp [call_variant_validator, hne, isErr]
  · cases rs with
    | netfail m => rfl
    | success s body =>
      have h400 : 400 ≤ s := by simpa [transportFail] using hs
      simp [search_hgvs, getJson, h400]
  · cases rs with
    | netfail m => rfl
    | success s body =>
      have h400 : 400 ≤ s := by simpa [transportFail] using hs
      simp [search_hgvs, getJson, h400]
  · cases rf with
    | netfail m => rfl
    | success s body =>
      have h400 : 400 ≤ s := by simpa [transportFail] using hf
      simp [fetch_esummary, getJson, h400]
  · cases rf with
    | netfail m => rfl
    | success s body =>
      have h400 : 400 ≤ s := by simpa [transportFail] using hf
      simp [fetch_esummary, getJson, h400]

/-- Witness for C4 at concrete transport failures: a raised network error for
the validator, an HTTP 500 for the search, a network error for the fetch. -/
theorem C4_witness :
    isErr (call_variant_validator (HttpOutcome.netfail (α := SearchBody) "connection reset")) = true
    ∧ (search_hgvs "NM_1:c.1A>T" (HttpOutcome.success 500 (SearchBody.mk (some (some ["9"]))))).fst = []
    ∧ (fetch_esummary "9" (HttpOutcome.netfail "timeout")).fst = emptyEsummary := by
  have h := C4_transport_failure_asymmetry (α := SearchBody)
    (HttpOutcome.netfail "connection reset") "NM_1:c.1A>T"
    (HttpOutcome.success 500 (SearchBody.mk (some (some ["9"]))))
    "9" (HttpOutcome.netfail "timeout") (by decide) (by decide) (by decide)
  exact ⟨h.1, h.2.1, h.2.2.2.1⟩

/-- C9: `update_df_with_vv_values` writes a cell only when the value is
truthy; for a falsy value the cell is left unchanged and a warning naming
the row and column is logged, so an update never overwrites an
already-populated cell with a null value. -/
theorem C9_update_truthiness (df : Df) (i : Nat) (vv : VVDict) (key : String)
    (v : PyVal) (hnd : (vv.map Prod.fst).Nodup) (hmem : (key, v) ∈ vv)
    (hi : i < df.rows.length) :
    ((update_df_with_vv_values df i vv).fst).cell i key
      = (if v.truthy then v else df.cell i key)
    ∧ (v.truthy = false →
        vvWarnMsg i key ∈ (update_df_with_vv_values df i vv).snd) :=
  ⟨updateItems_cell_mem vv df i key v hnd hmem hi,
   fun hv => updateItems_warn_mem vv df i key v hmem hv⟩

/-- A one-row table with an already-populated `g_hgvs` cell, used to witness
that a falsy update value does not overwrite it. -/
def w9df : Df := ⟨["g_hgvs"], [[("g_hgvs", PyVal.vstr "old")]]⟩

/-- Witness for C9: the falsy initial `g_hgvs` value of `vv_values` leaves
the populated cell unchanged and logs the warning naming row 0 and the
column. -/
theorem C9_witness :
    ((update_df_with_vv_values w9df 0 vvValuesInit).fst).cell 0 "g_hgvs"
      = (if PyVal.vnone.truthy then PyVal.vnone else w9df.cell 0 "g_hgvs")
    ∧ vvWarnMsg 0 "g_hgvs" ∈ (update_df_with_vv_values w9df 0 vvValuesInit).snd := by
  have h := C9_update_truthiness w9df 0 vvValuesInit "g_hgvs" PyVal.vnone
    (by decide) (by decide) (by decide)
  exact ⟨h.1, h.2 rfl⟩

/-- The cell at `(i, key)` after one row of the normalization stage:
`parse_vv_response` followed by `update_df_with_vv_values`, as performed by
the loop of `validate_variants`. -/
def normalizeRowCell (df : Df) (i : Nat) (vv : VVDict) (resp : VVResponse)
    (key : String) : PyVal :=
  ((update_df_with_vv_values df i (parse_vv_response resp vv i).fst).fst).cell i key

/-- The `vv_values` dict after a successful `parse_vv_response`: all five
enrichment keys rebound to the response's values. -/
def parsedChain (vv : VVDict) (resp : VVResponse) (entry : TandP) : VVDict :=
  setAssoc (setAssoc (setAssoc (setAssoc (setAssoc vv
    "g_hgvs" resp.g_hgvs) "t_hgvs" entry.t_hgvs) "hgnc_id"
    entry.gene_info.hgnc_id) "symbol" entry.gene_info.symbol)
    "p_hgvs_tlc" entry.p_hgvs_tlc

lemma parsedChain_nodup (vv : VVDict) (resp : VVResponse) (entry : TandP)
    (hnd : (vv.map Prod.fst).Nodup) :
    ((parsedChain vv resp entry).map Prod.fst).Nodup := by
  unfold parsedChain
  apply keys_nodup_setAssoc
  apply keys_nodup_setAssoc
  apply keys_nodup_setAssoc
  apply keys_nodup_setAssoc
  apply keys_nodup_setAssoc
  exact hnd

lemma parsedChain_mem_g (vv : VVDict) (resp : VVResponse) (entry : TandP) :
    ("g_hgvs", resp.g_hgvs) ∈ parsedChain vv resp entry := by
  unfold parsedChain
  apply (mem_setAssoc_of_ne _ _ _ _ _ (by decide)).mpr
  apply (mem_setAssoc_of_ne _ _ _ _ _ (by decide)).mpr
  apply (mem_setAssoc_of_ne _ _ _ _ _ (by decide)).mpr
  apply (mem_setAssoc_of_ne _ _ _ _ _ (by decide)).mpr
  exact mem_setAssoc_self _ _ _

lemma parsedChain_mem_t (vv : VVDict) (resp : VVResponse) (entry : TandP) :
    ("t_hgvs", entry.t_hgvs) ∈ parsedChain vv resp entry := by
  unfold parsedChain
  apply (mem_setAssoc_of_ne _ _ _ _ _ (by decide)).mpr
  apply (mem_setAssoc_of_ne _ _ _ _ _ (by decide)).mpr
  apply (mem_setAssoc_of_ne _ _ _ _ _ (by decide)).mpr
  exact mem_setAssoc_self _ _ _

lemma parsedChain_mem_h (vv : VVDict) (resp : VVResponse) (entry : TandP) :
    ("hgnc_id", entry.gene_info.hgnc_id) ∈ parsedChain vv resp entry := by
  unfold parsedChain
  apply (mem_setAssoc_of_ne _ _ _ _ _ (by decide)).mpr
  apply (mem_setAssoc_of_ne _ _ _ _ _ (by decide)).mpr
  exact mem_setAssoc_self _ _ _

lemma parsedChain_mem_s (vv : VVDict) (resp : VVResponse) (entry : TandP) :
    ("symbol", entry.gene_info.symbol) ∈ parsedChain vv resp entry := by
  unfold parsedChain
  apply (mem_setAssoc_of_ne _ _ _ _ _ (by decide)).mpr
  exact mem_setAssoc_self _ _ _

lemma parsedChain_mem_p (vv : VVDict) (resp : VVResponse) (entry : TandP) :
    ("p_hgvs_tlc", entry.p_hgvs_tlc) ∈ parsedChain vv resp entry := by
  unfold parsedChain
  exact mem_setAssoc_self _ _ _

lemma parse_success_eq (vv : VVDict) (resp : VVResponse) (i : Nat)
    (tid : String) (entry : TandP)
    (herr : resp.genomic_variant_error = PyVal.vnone)
    (hone : resp.hgvs_t_and_p = [(tid, entry)]) :
    parse_vv_response resp vv i = (parsedChain vv resp entry, []) := by
  simp [parse_vv_response, parsedChain, herr, hone]

/-- C3 (amended): for a row whose response has a null
`genomic_variant_error` and exactly one transcript entry, and whose five
extracted values are all truthy, the normalization stage writes all five
enrichment fields of that row from the response (no warning is logged by the
parse step).  The amendment restricts the original claim to truthy response
values: a falsy value (None or empty string) is not written and the cell is
left unchanged — see the counterexample. -/
theorem C3_success_row_written (df : Df) (i : Nat) (vv : VVDict)
    (resp : VVResponse) (tid : String) (entry : TandP)
    (hnd : (vv.map Prod.fst).Nodup) (hi : i < df.rows.length)
    (herr : resp.genomic_variant_error = PyVal.vnone)
    (hone : resp.hgvs_t_and_p = [(tid, entry)])
    (hg : resp.g_hgvs.truthy = true) (ht : entry.t_hgvs.truthy = true)
    (hh : entry.gene_info.hgnc_id.truthy = true)
    (hs : entry.gene_info.symbol.truthy = true)
    (hp : entry.p_hgvs_tlc.truthy = true) :
    (parse_vv_response resp vv i).snd = []
    ∧ normalizeRowCell df i vv resp "g_hgvs" = resp.g_hgvs
    ∧ normalizeRowCell df i vv resp "t_hgvs" = entry.t_hgvs
    ∧ normalizeRowCell df i vv resp "hgnc_id" = entry.gene_info.hgnc_id
    ∧ normalizeRowCell df i vv resp "symbol" = entry.gene_info.symbol
    ∧ normalizeRowCell df i vv resp "p_hgvs_tlc" = entry.p_hgvs_tlc := by
  have hparse := parse_success_eq vv resp i tid entry herr hone
  have hnd5 := parsedChain_nodup vv resp entry hnd
  refine ⟨by rw [hparse], ?_, ?_, ?_, ?_, ?_⟩
  · simp only [normalizeRowCell, update_df_with_vv_values, hparse]
    rw [updateItems_cell_mem _ _ _ _ _ hnd5 (parsedChain_mem_g vv resp entry) hi,
        if_pos hg]
  · simp only [normalizeRowCell, update_df_with_vv_values, hparse]
    rw [updateItems_cell_mem _ _ _ _ _ hnd5 (parsedChain_mem_t vv resp entry) hi,
        if_pos ht]
  · simp only [normalizeRowCell, update_df_with_vv_values, hparse]
    rw [updateItems_cell_mem _ _ _ _ _ hnd5 (parsedChain_mem_h vv resp entry) hi,
        if_pos hh]
  · simp only [normalizeRowCell, update_df_with_vv_values, hparse]
    rw [updateItems_cell_mem _ _ _ _ _ hnd5 (parsedChain_mem_s vv resp entry) hi,
        if_pos hs]
  · simp only [normalizeRowCell, update_df_with_vv_values, hparse]
    rw [updateItems_cell_mem _ _ _ _ _ hnd5 (parsedChain_mem_p vv resp entry) hi,
        if_pos hp]

/-- A one-row base table for the normalization-stage examples. -/
def c3base : Df := ⟨["#CHROM"], [[("#CHROM", PyVal.vstr "1")]]⟩

/-- The base table after `setup_df`. -/
def c3df : Df := setup_df c3base

/-- A response with a null error and exactly one transcript entry whose
`t_hgvs` value is null. -/
def c3resp : VVResponse :=
  ⟨PyVal.vnone, PyVal.vstr "G1",
   [("NM_9", ⟨PyVal.vnone, ⟨PyVal.vstr "H1", PyVal.vstr "S1"⟩, PyVal.vstr "P1"⟩)]⟩

/-- Counterexample to C3 as stated: this response satisfies the claim's
hypothesis (null `genomic_variant_error`, exactly one transcript entry), yet
after the normalization stage the row's `t_hgvs` cell is still null — the
falsy response value is skipped by `update_df_with_vv_values`, so not every
enrichment field is non-null afterwards. -/
theorem C3_counterexample :
    c3resp.genomic_variant_error = PyVal.vnone
    ∧ c3resp.hgvs_t_and_p.length = 1
    ∧ normalizeRowCell c3df 0 vvValuesInit c3resp "t_hgvs" = PyVal.vnone := by
  refine ⟨rfl, rfl, ?_⟩
  decide

/-- A response with a null error, one transcript entry, and all five values
truthy. -/
def c3resp2 : VVResponse :=
  ⟨PyVal.vnone, PyVal.vstr "G2",
   [("NM_8", ⟨PyVal.vstr "T2", ⟨PyVal.vstr "H2", PyVal.vstr "S2"⟩, PyVal.vstr "P2"⟩)]⟩

/-- Witness for C3 (amended) at a concrete fully-truthy response. -/
theorem C3_witness :
    normalizeRowCell c3df 0 vvValuesInit c3resp2 "g_hgvs" = c3resp2.g_hgvs
    ∧ normalizeRowCell c3df 0 vvValuesInit c3resp2 "t_hgvs" = PyVal.vstr "T2" := by
  have h := C3_success_row_written c3df 0 vvValuesInit c3resp2 "NM_8"
    ⟨PyVal.vstr "T2", ⟨PyVal.vstr "H2", PyVal.vstr "S2"⟩, PyVal.vstr "P2"⟩
    (by decide) (by decide) rfl rfl (by decide) (by decide) (by decide)
    (by decide) (by decide)
  exact ⟨h.2.1, h.2.2.1⟩

-- ## Concrete inputs shared by the batch-stage claims

/-- A two-row coordinate table: row 0 will validate, row 1 will not. -/
def c2base : Df :=
  ⟨["#CHROM", "POS", "REF", "ALT"],
   [[("#CHROM", PyVal.vstr "17"), ("POS", PyVal.vint 50198002),
     ("REF", PyVal.vstr "C"), ("ALT", PyVal.vstr "A")],
    [("#CHROM", PyVal.vstr "1"), ("POS", PyVal.vint 2),
     ("REF", PyVal.vstr "A"), ("ALT", PyVal.vstr "T")]]⟩

/-- A fully successful response for row 0. -/
def c2resp0 : VVResponse :=
  ⟨PyVal.vnone, PyVal.vstr "G0",
   [("NM_000088.4",
     ⟨PyVal.vstr "T0", ⟨PyVal.vstr "H0", PyVal.vstr "S0"⟩, PyVal.vstr "P0"⟩)]⟩

/-- A business-failure response (non-null `genomic_variant_error`) for
row 1. -/
def c2resp1 : VVResponse := ⟨PyVal.vstr "cannot validate", PyVal.vnone, []⟩

/-- Oracle serving row 0's descriptor the success payload and every other
descriptor the failure payload. -/
def c2oracle : String → HttpOutcome VVResponse :=
  fun desc =>
    if desc = "17-50198002-C-A" then .success 200 c2resp0
    else .success 200 c2resp1

/-- C2 evidence (code bug): in a two-row batch where row 0 validates and
row 1's response carries a non-null `genomic_variant_error`, the shared
`vv_values` dict is never reset, so `validate_variants` writes row 0's stale
enrichment values into row 1 — the failed row's `g_hgvs` and `t_hgvs` cells
end up non-null, contradicting `bulk_call_variant_validator`'s own docstring
("the corresponding columns will contain None").  Exactly one warning
referencing row 1 is logged and no exception is raised. -/
theorem C2_bug_evidence :
    c2oracle "1-2-A-T" = HttpOutcome.success 200 c2resp1
    ∧ c2resp1.genomic_variant_error = PyVal.vstr "cannot validate"
    ∧ vvResCell (validate_variants_df c2base c2oracle) 1 "g_hgvs" = PyVal.vstr "G0"
    ∧ vvResCell (validate_variants_df c2base c2oracle) 1 "t_hgvs" = PyVal.vstr "T0"
    ∧ vvResWarnings (validate_variants_df c2base c2oracle)
        = ["Variant at row 1 could not be validated: cannot validate"] := by
  refine ⟨rfl, rfl, ?_, ?_, ?_⟩ <;> decide

-- ## Annotation batch: shared lemma and concrete inputs

lemma annotate_dataframe_ok (df : Df) (client : ClinVarOracle)
    (hcol : "t_hgvs" ∈ df.columns) (hne : df.rows ≠ []) :
    annotate_dataframe df client
      = .ok ({ columns := (colInit df).columns,
               rows := (annotateRows client (colInit df).rows).fst },
             (annotateRows client (colInit df).rows).snd.fst,
             (annotateRows client (colInit df).rows).snd.snd) := by
  have hemp : df.rows.isEmpty = false := by
    cases hr : df.rows with
    | nil => exact absurd hr hne
    | cons a l => rfl
  simp [annotate_dataframe, hcol, hemp]

/-- A one-row annotation input with only a `t_hgvs` column. -/
def cDf1 : Df := ⟨["t_hgvs"], [[("t_hgvs", PyVal.vstr "NM_1:c.1A>T")]]⟩

/-- A sample esummary with a germline classification (practice guideline,
one trait with an OMIM cross-reference). -/
def cSampleEsum : Esummary :=
  ⟨some ⟨some "Pathogenic", some "practice guideline",
    some [⟨some "Example Disease", none,
      some [⟨some "OMIM", none, some "123456", none⟩], none⟩], none⟩,
   none⟩

/-- A client whose search finds one UID and whose fetch and extract
succeed. -/
def c5okClient : ClinVarOracle :=
  ⟨fun _ => .ok ["11111"], fun _ => .ok cSampleEsum, realExtract⟩

/-- A client whose search finds one UID but whose fetch raises. -/
def c5failClient : ClinVarOracle :=
  ⟨fun _ => .ok ["11111"], fun _ => .error "boom", realExtract⟩

/-- Counterexample to C5 as stated: this client's search returns one
identifier for the row, yet the identifier is NOT written as the row's
`clinvar_uid` — the fetch raises, the exception is caught, and the row is
left unchanged (the batch still returns normally). -/
theorem C5_counterexample :
    c5failClient.search (PyVal.vstr "NM_1:c.1A>T") = .ok ["11111"]
    ∧ isErr (annotate_dataframe cDf1 c5failClient) = false
    ∧ annResCell (annotate_dataframe cDf1 c5failClient) 0 "clinvar_uid"
        = PyVal.vnone := by
  refine ⟨rfl, ?_, ?_⟩ <;> decide

/-- C5 (amended): `annotate_dataframe` processes rows in table order and
never lets a per-row exception escape; a row whose search returns no
identifiers is left unchanged (its classification fields keep their nulls);
a row whose search returns one or more identifiers uses the first one — it
is the one passed to the record fetch — and, provided the row's fetch and
extract raise no exception, that identifier is written as the row's
`clinvar_uid`.  The amendment adds the no-exception proviso: when the fetch
or extract raises, the exception is caught and the identifier is not
written (see the counterexample). -/
theorem C5_batch_behavior (df : Df) (client : ClinVarOracle) (i : Nat)
    (row : Row) (hcol : "t_hgvs" ∈ df.columns) (hne : df.rows ≠ [])
    (hrow : (colInit df).rows.get? i = some row) :
    isErr (annotate_dataframe df client) = false
    ∧ (annResRows (annotate_dataframe df client)).get? i
        = some (rowEffect client row).fst
    ∧ (client.search ((rowLookup row "t_hgvs").getD PyVal.vnone) = .ok [] →
        (rowEffect client row).fst = row)
    ∧ (∀ uid rest es ext,
        client.search ((rowLookup row "t_hgvs").getD PyVal.vnone)
            = .ok (uid :: rest) →
        client.fetch uid = .ok es →
        client.extract es = .ok ext →
        (rowEffect client row).snd.snd
            = [NetCall.searchCall ((rowLookup row "t_hgvs").getD PyVal.vnone),
               NetCall.fetchCall uid]
          ∧ rowLookup ((rowEffect client row).fst) "clinvar_uid"
              = some (PyVal.vstr uid)) := by
  have hann := annotate_dataframe_ok df client hcol hne
  refine ⟨?_, ?_, ?_, ?_⟩
  · rw [hann]; rfl
  · rw [hann]
    simp only [annResRows]
    rw [annotateRows_get, hrow]
    rfl
  · intro hsearch
    simp [rowEffect, hsearch]
  · intro uid rest es ext hsearch hfetch hext
    refine ⟨?_, ?_⟩
    · simp [rowEffect, hsearch, hfetch, hext]
    · simp only [rowEffect, hsearch, hfetch, hext, writeRowAssoc]
      rw [rowLookup_setAssoc_ne _ _ _ _ (by decide)]
      rw [rowLookup_setAssoc_ne _ _ _ _ (by decide)]
      rw [rowLookup_setAssoc_ne _ _ _ _ (by decide)]
      rw [rowLookup_setAssoc_ne _ _ _ _ (by decide)]
      rw [rowLookup_setAssoc_ne _ _ _ _ (by decide)]
      exact rowLookup_setAssoc_self _ _ _

/-- Witness for C5 (amended): a concrete one-row batch returns normally. -/
theorem C5_witness :
    isErr (annotate_dataframe cDf1 c5okClient) = false := by
  have h := C5_batch_behavior cDf1 c5okClient 0
    [("t_hgvs", PyVal.vstr "NM_1:c.1A>T"), ("clinvar_uid", PyVal.vnone),
     ("classification", PyVal.vnone), ("review_status_text", PyVal.vnone),
     ("star_rating", PyVal.vnone), ("disease_name", PyVal.vnone),
     ("disease_mim", PyVal.vnone)]
    (by decide) (by decide) (by decide)
  exact h.1

/-- Counterexample to C7 as stated: after a fully successful annotation run,
the identifier the stage produced is in the RETURNED table, while the table
object the caller passed in still has no `clinvar_uid` value —
`annotate_dataframe` writes to the copy `out = df.copy()`, not to the shared
table. -/
theorem C7_counterexample :
    (annotateCallerTableAfter cDf1 c5okClient).cell 0 "clinvar_uid"
        = PyVal.vnone
    ∧ annResCell (annotate_dataframe cDf1 c5okClient) 0 "clinvar_uid"
        = PyVal.vstr "11111" := by
  constructor <;> decide

/-- C7 (amended): the validation stage mutates the caller's table in place
(the caller's table after the run is exactly the enriched table the stage
produced), while the annotation stage copies its input, writes the
enrichment into the copy, and returns it — the caller's own table object is
left unchanged, and the enrichment values are obtained from the return
value (the batch itself completes normally). -/
theorem C7_table_aliasing (df : Df) (client : ClinVarOracle) (base : Df)
    (oracle : String → HttpOutcome VVResponse)
    (hcol : "t_hgvs" ∈ df.columns) (hne : df.rows ≠ []) :
    annotateCallerTableAfter df client = df
    ∧ isErr (annotate_dataframe df client) = false
    ∧ validateCallerTableAfter base oracle = validate_variants_df base oracle := by
  refine ⟨rfl, ?_, rfl⟩
  rw [annotate_dataframe_ok df client hcol hne]
  rfl

/-- Witness for C7 (amended) at a concrete table and client. -/
theorem C7_witness :
    annotateCallerTableAfter cDf1 c5okClient = cDf1 :=
  (C7_table_aliasing cDf1 c5okClient c3base
    (fun _ => HttpOutcome.netfail "unreachable") (by decide) (by decide)).1

/-- An annotation input without the required `t_hgvs` column. -/
def c8df1 : Df := ⟨["not_hgvs"], [[("not_hgvs", PyVal.vstr "x")]]⟩

/-- A one-row validation input missing the `#CHROM` coordinate column. -/
def c8df2 : Df :=
  ⟨["POS", "REF", "ALT"],
   [[("POS", PyVal.vint 2), ("REF", PyVal.vstr "A"), ("ALT", PyVal.vstr "T")]]⟩

/-- An EMPTY validation input missing every coordinate column. -/
def c8df3 : Df := ⟨["POS", "REF", "ALT"], []⟩

/-- A client that is never reached in the C8/C10 scenarios. -/
def c8client : ClinVarOracle :=
  ⟨fun _ => .ok [], fun _ => .ok emptyEsummary, realExtract⟩

/-- Counterexample to C8 as stated: an empty validation table lacking the
coordinate columns raises nothing at all — the row loop never runs, so
`bulk_call_variant_validator` returns an empty result instead of raising. -/
theorem C8_counterexample :
    c8df3.columns.contains "#CHROM" = false
    ∧ c8df3.rows.length = 0
    ∧ bulk_call_variant_validator c8df3 (fun _ => HttpOutcome.netfail "unreachable")
        = .ok ([], []) := by
  refine ⟨rfl, rfl, rfl⟩

/-- C8 (amended): a missing `t_hgvs` column makes `annotate_dataframe` raise
`KeyError` up front, before any network call (the error carries an empty
call trace); a validation table missing a coordinate column makes
`bulk_call_variant_validator` raise the `KeyError` from the first row's
descriptor f-string, before any network call — provided the table has at
least one row.  The amendment adds that proviso: an empty validation table
returns an empty result without raising (see the counterexample). -/
theorem C8_missing_column (df1 df2 df3 : Df) (client : ClinVarOracle)
    (oracle2 oracle3 : String → HttpOutcome VVResponse)
    (row : Row) (rest : List Row) (e : String)
    (h1 : "t_hgvs" ∉ df1.columns)
    (h2 : df2.rows = row :: rest) (h2e : buildDesc row = .error e)
    (h3 : df3.rows = []) :
    annotate_dataframe df1 client = .error (.keyError, [])
    ∧ bulk_call_variant_validator df2 oracle2 = .error (e, [])
    ∧ bulk_call_variant_validator df3 oracle3 = .ok ([], []) := by
  refine ⟨?_, ?_, ?_⟩
  · simp [annotate_dataframe, h1]
  · simp [bulk_call_variant_validator, bulkLoop, h2, h2e]
  · simp [bulk_call_variant_validator, bulkLoop, h3]

/-- Witness for C8 (amended) at concrete tables: the annotation `KeyError`
and the validation `KeyError` for the missing `#CHROM` label, both with an
empty network-call trace. -/
theorem C8_witness :
    annotate_dataframe c8df1 c8client = .error (.keyError, [])
    ∧ bulk_call_variant_validator c8df2 (fun _ => HttpOutcome.netfail "unreachable")
        = .error ("KeyError: #CHROM", []) := by
  have h := C8_missing_column c8df1 c8df2 c8df3 c8client
    (fun _ => HttpOutcome.netfail "unreachable")
    (fun _ => HttpOutcome.netfail "unreachable")
    [("POS", PyVal.vint 2), ("REF", PyVal.vstr "A"), ("ALT", PyVal.vstr "T")]
    [] "KeyError: #CHROM" (by decide) rfl rfl rfl
  exact ⟨h.1, h.2.1⟩

/-- An annotation input with a `t_hgvs` column but zero rows. -/
def c10df : Df := ⟨["t_hgvs"], []⟩

/-- C10: `annotate_dataframe` raises `ValueError` for an empty input table
that does have the `t_hgvs` column, before any network call; and because
emptiness is checked only after the missing-column check, a table lacking
`t_hgvs` raises `KeyError` regardless of emptiness. -/
theorem C10_empty_table_checks (df1 df2 : Df) (cl1 cl2 : ClinVarOracle)
    (h1 : "t_hgvs" ∈ df1.columns) (h2 : df1.rows = [])
    (h3 : "t_hgvs" ∉ df2.columns) :
    annotate_dataframe df1 cl1 = .error (.valueError, [])
    ∧ annotate_dataframe df2 cl2 = .error (.keyError, []) := by
  constructor
  · have hemp : df1.rows.isEmpty = true := by simp [h2]
    simp [annotate_dataframe, h1, hemp]
  · simp [annotate_dataframe, h3]

/-- Witness for C10: the empty table with the column raises `ValueError`; an
empty-or-not table without the column raises `KeyError`. -/
theorem C10_witness :
    annotate_dataframe c10df c8client = .error (.valueError, [])
    ∧ annotate_dataframe c8df1 c8client = .error (.keyError, []) :=
  C10_empty_table_checks c10df c8df1 c8client c8client
    (by decide) rfl (by decide)
